import Mathlib

/-!
Verification of the pdf_conversion_system repository (pdf-printer gateway and
pdf-worker consumer) against its natural-language specification.

The embedding models the two Python source files:
  - src/pdf-printer/app/main.py  (FastAPI gateway: /convert, /queue-job,
    /convert-in-shared-dir, /delete-file, ...)
  - src/pdf-worker/worker.py     (RabbitMQ consumer loop)

The Staging Store (the shared directory /app/shared) is modeled as a list of
file names with set semantics.  Handlers operate on file names; the source
joins them with the fixed literal directory "/app/shared", which contains no
occurrence of ".xlsx", so the `str.replace`-based output derivation acts on
the file-name part only and the directory prefix is dropped from the model.
External effects (the upload stream write, the libreoffice subprocess, the
pika publish, the worker's HTTP POST) are passed in as explicit outcome
parameters, since they are outside the repository.
-/

set_option autoImplicit false

namespace PdfConversion

/-! ## Python string primitives used by the handlers -/

/-- Python truthiness of an optional string (`if x:`): `None` and the empty
string are falsy. -/
def truthyOpt : Option String → Bool
  | none => false
  | some s => s != ""

/-- Python truthiness of an optional integer field (`if x:`). -/
def truthyNat : Option Nat → Bool
  | none => false
  | some n => n != 0

/-- Left-to-right scan of Python `str.replace(pat, rep)`.  The `skip`
counter consumes characters already covered by a match of `pat` (so matches
never overlap, as in CPython). -/
def replaceGo (pat rep : List Char) : List Char → Nat → List Char
  | [], _ => []
  | _ :: rest, skip + 1 => replaceGo pat rep rest skip
  | c :: rest, 0 =>
    if pat.isPrefixOf (c :: rest) then rep ++ replaceGo pat rep rest (pat.length - 1)
    else c :: replaceGo pat rep rest 0

/-- Python `s.replace(pat, rep)` on character lists (for nonempty `pat`;
the handlers only ever use the pattern ".xlsx"). -/
def listReplace (pat rep s : List Char) : List Char :=
  if pat.isEmpty then s else replaceGo pat rep s 0

/-- Python `s.replace(pat, rep)` on strings. -/
def pyReplace (s pat rep : String) : String :=
  ⟨listReplace pat.data rep.data s.data⟩

/-- Python substring test `pat in s` (for nonempty `pat`). -/
def occursIn (pat : List Char) : List Char → Bool
  | [] => pat.isEmpty
  | c :: rest => pat.isPrefixOf (c :: rest) || occursIn pat rest

/-- String form of `occursIn`. -/
def strContains (s pat : String) : Bool :=
  occursIn pat.data s.data

/-- The gateway's derived output name:
`output_path = input_path.replace(".xlsx", ".pdf")`
(main.py lines 235 and 275). -/
def deriveOutputName (fname : String) : String :=
  pyReplace fname ".xlsx" ".pdf"

/-! ### Lemmas about the replace scan -/

theorem isPrefixOf_length {pat s : List Char} (h : pat.isPrefixOf s = true) :
    pat.length ≤ s.length := by
  induction pat generalizing s with
  | nil => simp
  | cons a as ih =>
    cases s with
    | nil => simp [List.isPrefixOf] at h
    | cons b bs =>
      simp only [List.isPrefixOf, Bool.and_eq_true] at h
      simpa using ih h.2

theorem replaceGo_of_not_occurs {pat rep : List Char} :
    ∀ s : List Char, occursIn pat s = false → replaceGo pat rep s 0 = s := by
  intro s
  induction s with
  | nil => intro _; rfl
  | cons c rest ih =>
    intro h
    simp only [occursIn, Bool.or_eq_false_iff] at h
    simp [replaceGo, h.1, ih h.2]

theorem replaceGo_length_le {pat rep : List Char} (hrep : rep.length ≤ pat.length) :
    ∀ (s : List Char) (skip : Nat), (replaceGo pat rep s skip).length ≤ s.length - skip := by
  intro s
  induction s with
  | nil => intro skip; simp [replaceGo]
  | cons c rest ih =>
    intro skip
    cases skip with
    | succ k =>
      have h := ih k
      simp only [replaceGo, List.length_cons]
      omega
    | zero =>
      by_cases hp : pat.isPrefixOf (c :: rest) = true
      · have hplen := isPrefixOf_length hp
        have h2 := ih (pat.length - 1)
        simp only [replaceGo, hp, if_true, List.length_append, List.length_cons] at *
        omega
      · have h2 := ih 0
        simp only [replaceGo, hp, if_false, List.length_cons, Bool.false_eq_true] at *
        omega

theorem replaceGo_length_lt {pat rep : List Char} (hrep : rep.length < pat.length) :
    ∀ s : List Char, occursIn pat s = true → (replaceGo pat rep s 0).length < s.length := by
  intro s
  induction s with
  | nil =>
    intro h
    simp only [occursIn, List.isEmpty_iff] at h
    subst h
    simp at hrep
  | cons c rest ih =>
    intro h
    by_cases hp : pat.isPrefixOf (c :: rest) = true
    · have hplen := isPrefixOf_length hp
      have h2 := @replaceGo_length_le pat rep (Nat.le_of_lt hrep) rest (pat.length - 1)
      simp only [replaceGo, hp, if_true, List.length_append, List.length_cons] at *
      omega
    · simp only [occursIn, Bool.or_eq_true] at h
      have hocc : occursIn pat rest = true := by
        cases h with
        | inl h => exact absurd h hp
        | inr h => exact h
      have h2 := ih hocc
      simp only [replaceGo, hp, if_false, List.length_cons, Bool.false_eq_true]
      omega

theorem occursIn_nil_of_isEmpty {pat : List Char} (h : pat.isEmpty = true) :
    pat = [] := by
  cases pat with
  | nil => rfl
  | cons a as => simp [List.isEmpty] at h

/-- If the pattern does not occur in the input, `str.replace` is the
identity. -/
theorem pyReplace_noop (s pat rep : String) (h : strContains s pat = false) :
    pyReplace s pat rep = s := by
  unfold pyReplace listReplace
  by_cases hp : pat.data.isEmpty = true
  · simp [hp]
  · simp only [Bool.not_eq_true] at hp
    rw [hp, if_neg (by simp)]
    rw [replaceGo_of_not_occurs s.data h]

/-- If the pattern does occur and the replacement is strictly shorter, the
result is strictly shorter than the input (hence distinct from it). -/
theorem pyReplace_length_lt (s pat rep : String) (h : strContains s pat = true)
    (hrep : rep.data.length < pat.data.length) :
    (pyReplace s pat rep).data.length < s.data.length := by
  unfold pyReplace listReplace
  have hne : pat.data.isEmpty = false := by
    cases hpat : pat.data.isEmpty
    · rfl
    · have := occursIn_nil_of_isEmpty hpat
      rw [this] at hrep
      simp at hrep
  rw [if_neg (by simp [hne])]
  exact replaceGo_length_lt hrep s.data h

theorem deriveOutputName_noop (fname : String) (h : strContains fname ".xlsx" = false) :
    deriveOutputName fname = fname :=
  pyReplace_noop fname ".xlsx" ".pdf" h

theorem deriveOutputName_ne (fname : String) (h : strContains fname ".xlsx" = true) :
    deriveOutputName fname ≠ fname := by
  intro heq
  have hlt := pyReplace_length_lt fname ".xlsx" ".pdf" h (by decide)
  rw [show pyReplace fname ".xlsx" ".pdf" = deriveOutputName fname from rfl, heq] at hlt
  omega

/-! ## Python json.dumps on strings

The gateway serializes the queue message with `json.dumps({'xlsx': ...,
'lo_options': ...})` (main.py line 195) and the worker re-encodes the
options string with `json.dumps(lo_options)` (worker.py line 38).  The
encoder below reproduces CPython's default encoder (ensure_ascii=True):
`"` and `\` get a backslash escape, the named control escapes \b \t \n \f
\r are used, all other characters outside the printable ASCII range
0x20..0x7e become \uXXXX escapes (with surrogate pairs above 0xFFFF). -/

/-- Lowercase hexadecimal digit. -/
def hexDigit (n : Nat) : Char :=
  if n < 10 then Char.ofNat (48 + n) else Char.ofNat (87 + n)

/-- A `\uXXXX` escape for a code unit below 0x10000. -/
def escU4 (n : Nat) : List Char :=
  ['\\', 'u', hexDigit (n / 4096 % 16), hexDigit (n / 256 % 16),
   hexDigit (n / 16 % 16), hexDigit (n % 16)]

/-- The encoding of one character inside a JSON string literal, as produced
by CPython's `json.dumps` with its default `ensure_ascii=True`. -/
def escapeChar (c : Char) : List Char :=
  if c = '"' then ['\\', '"']
  else if c = '\\' then ['\\', '\\']
  else if c = '\n' then ['\\', 'n']
  else if c = '\r' then ['\\', 'r']
  else if c = '\t' then ['\\', 't']
  else if c.toNat = 8 then ['\\', 'b']
  else if c.toNat = 12 then ['\\', 'f']
  else if c.toNat < 32 then escU4 c.toNat
  else if c.toNat > 126 then
    if c.toNat < 65536 then escU4 c.toNat
    else escU4 (55296 + (c.toNat - 65536) / 1024) ++ escU4 (56320 + (c.toNat - 65536) % 1024)
  else [c]

def jsonEscape : List Char → List Char
  | [] => []
  | c :: rest => escapeChar c ++ jsonEscape rest

/-- Python `json.dumps` applied to a string. -/
def jsonDumpsString (s : String) : String :=
  ⟨'"' :: (jsonEscape s.data ++ ['"'])⟩

/-- Python `json.dumps` applied to an optional string (`None` becomes `null`). -/
def jsonDumpsOptString : Option String → String
  | some s => jsonDumpsString s
  | none => "null"

/-- The body `json.dumps({'xlsx': fname, 'lo_options': lo})` with CPython's default
separators and insertion-ordered keys (main.py line 195). -/
def dumpsJobMessage (fname : String) (lo : Option String) : String :=
  "\x7b\"xlsx\": " ++ jsonDumpsString fname ++ ", \"lo_options\": " ++
    jsonDumpsOptString lo ++ "\x7d"

/-- A character that `json.dumps` leaves unescaped: printable ASCII other
than the quote and the backslash. -/
def plainChar (c : Char) : Bool :=
  32 ≤ c.toNat && c.toNat ≤ 126 && c != '"' && c != '\\'

theorem escapeChar_plain {c : Char} (h : plainChar c = true) : escapeChar c = [c] := by
  simp only [plainChar, Bool.and_eq_true, bne_iff_ne, decide_eq_true_eq] at h
  obtain ⟨⟨⟨h1, h2⟩, h3⟩, h4⟩ := h
  unfold escapeChar
  rw [if_neg h3, if_neg h4]
  rw [if_neg (fun hc => by rw [hc] at h1; simp at h1)]
  rw [if_neg (fun hc => by rw [hc] at h1; simp at h1)]
  rw [if_neg (fun hc => by rw [hc] at h1; simp at h1)]
  rw [if_neg (by omega), if_neg (by omega), if_neg (by omega), if_neg (by omega)]

theorem jsonEscape_plain {s : List Char} (h : ∀ c ∈ s, plainChar c = true) :
    jsonEscape s = s := by
  induction s with
  | nil => rfl
  | cons c rest ih =>
    simp only [jsonEscape, escapeChar_plain (h c (by simp)),
      ih (fun d hd => h d (by simp [hd])), List.cons_append, List.nil_append]

theorem escapeChar_length_pos (c : Char) : 1 ≤ (escapeChar c).length := by
  unfold escapeChar
  split
  · simp
  split
  · simp
  split
  · simp
  split
  · simp
  split
  · simp
  split
  · simp
  split
  · simp
  split
  · simp [escU4]
  split
  · split <;> simp [escU4]
  · simp

theorem jsonEscape_length (s : List Char) : s.length ≤ (jsonEscape s).length := by
  induction s with
  | nil => simp [jsonEscape]
  | cons c rest ih =>
    have := escapeChar_length_pos c
    simp only [jsonEscape, List.length_append, List.length_cons]
    omega

/-- The encoding `json.dumps(s)` is never the string `s` itself: it is at least two
characters longer. -/
theorem jsonDumpsString_ne (s : String) : jsonDumpsString s ≠ s := by
  intro h
  have hlen : (jsonDumpsString s).data.length = s.data.length := by rw [h]
  have hdata : (jsonDumpsString s).data = '"' :: (jsonEscape s.data ++ ['"']) := rfl
  have hesc := jsonEscape_length s.data
  rw [hdata] at hlen
  simp only [List.length_cons, List.length_append, List.length_singleton] at hlen
  omega

theorem jsonDumpsString_ne_empty (s : String) : (jsonDumpsString s != "") = true := by
  simp only [bne_iff_ne, ne_eq]
  intro h
  have : (jsonDumpsString s).data = ("" : String).data := by rw [h]
  simp only [show (jsonDumpsString s).data = '"' :: (jsonEscape s.data ++ ['"']) from rfl] at this
  simp [String.data] at this

/-- For strings of plain printable characters, `json.dumps` just wraps the
string in quote characters. -/
theorem jsonDumpsString_plain (s : String) (h : ∀ c ∈ s.data, plainChar c = true) :
    jsonDumpsString s = "\"" ++ s ++ "\"" := by
  apply String.ext
  show '"' :: (jsonEscape s.data ++ ['"']) = _
  rw [jsonEscape_plain h]
  simp [String.data_append]

/-! ## The Staging Store

The shared directory is modeled as a list of file names with set
semantics: writing a file that exists overwrites it (membership is
unchanged), `os.remove` drops the name. -/

abbrev Store := List String

/-- Writing (or overwriting) a file in the shared directory. -/
def Store.write (st : Store) (f : String) : Store :=
  if f ∈ st then st else f :: st

/-- Effect of `os.remove` on an existing file. -/
def Store.removeFile (st : Store) (f : String) : Store :=
  st.filter (fun g => g != f)

theorem Store.mem_removeFile {st : Store} {f g : String} :
    g ∈ st.removeFile f ↔ g ∈ st ∧ g ≠ f := by
  simp [Store.removeFile, List.mem_filter]

theorem Store.not_mem_removeFile_self (st : Store) (f : String) :
    f ∉ st.removeFile f := by
  simp [Store.mem_removeFile]

theorem Store.removeFile_of_not_mem {st : Store} {f : String} (h : f ∉ st) :
    st.removeFile f = st := by
  apply List.filter_eq_self.mpr
  intro g hg
  simp only [bne_iff_ne, ne_eq, decide_eq_true_eq]
  intro he
  exact h (he ▸ hg)

theorem Store.removeFile_removeFile (st : Store) (f : String) :
    (st.removeFile f).removeFile f = st.removeFile f :=
  Store.removeFile_of_not_mem (Store.not_mem_removeFile_self st f)

theorem Store.mem_write_iff {st : Store} {f g : String} :
    g ∈ st.write f ↔ g ∈ st ∨ g = f := by
  unfold Store.write
  split
  · rename_i hmem
    constructor
    · exact Or.inl
    · rintro (h | h)
      · exact h
      · exact h ▸ hmem
  · simp [or_comm]

theorem Store.mem_write_self (st : Store) (f : String) : f ∈ st.write f :=
  Store.mem_write_iff.mpr (Or.inr rfl)

/-! ## Gateway handlers (src/pdf-printer/app/main.py)

Each handler is a function of its request data, the outcomes of the
external effects it performs (upload write, libreoffice run, pika publish,
each passed in as an `Except`/exit-code parameter), and the current Staging
Store.  The result records the HTTP response value, the store after the
handler returns, how many times the conversion engine was invoked, and the
subprocess command vector that was built. -/

/-- The shared staging directory (`TMP_DIR` in main.py). -/
def TMP_DIR : String := "/app/shared"

/-- The response value a handler returns (FileResponse, a JSON error body,
the queued acknowledgment, the shared-dir success body, an HTTPException
404, or the redirect used by /delete-file). -/
inductive Response where
  | fileResp (path : String) (filename : String)
  | errObj (msg : String)
  | queuedObj (file : String)
  | sharedOk (pdf : String)
  | http404
  | redirectPdfs
  deriving DecidableEq

structure HandlerResult where
  resp : Response
  store : Store
  engineCalls : Nat
  cmd : List String
  deriving DecidableEq

/-- The libreoffice export target: the plain "pdf" converter, or the
`pdf:calc_pdf_Export:<options>` filter when `lo_options` is truthy
(main.py lines 246-250 and 282-290). -/
def convertTarget : Option String → String
  | none => "pdf"
  | some s => if s != "" then "pdf:calc_pdf_Export:" ++ s else "pdf"

/-- The subprocess argument vector (`convert_cmd`).  The source passes the
full `input_path`; the model keeps the file name (the directory prefix is
the fixed literal `TMP_DIR`). -/
def convertCmd (fname : String) (lo : Option String) : List String :=
  ["libreoffice", "--headless", "--convert-to", convertTarget lo, fname, "--outdir", TMP_DIR]

/-- Handler for `POST /convert` (`convert_xlsx`, main.py lines 227-265): write the
upload into the store, run libreoffice once, and in the `finally` block
delete both the input path and the derived output path if they exist.
`writeRes` is the outcome of writing the upload; `exitCode`/`stderr` are
the subprocess result (on exit 0 the engine has produced the derived
output file in the store). -/
def convert_xlsx_try (fname : String) (lo : Option String) (writeRes : Except String Unit)
    (exitCode : Nat) (stderr : String) (st : Store) : HandlerResult :=
  match writeRes with
  | .error e => { resp := .errObj e, store := st, engineCalls := 0, cmd := [] }
  | .ok _ =>
    let st1 := st.write fname
    let cmd := convertCmd fname lo
    if exitCode = 0 then
      { resp := .fileResp (deriveOutputName fname) (deriveOutputName fname),
        store := st1.write (deriveOutputName fname), engineCalls := 1, cmd := cmd }
    else
      -- `raise RuntimeError(f"LibreOffice failed: {result.stderr}")`,
      -- caught as `return {"error": str(e)}`
      { resp := .errObj ("LibreOffice failed: " ++ stderr), store := st1,
        engineCalls := 1, cmd := cmd }

def convert_xlsx (fname : String) (lo : Option String) (writeRes : Except String Unit)
    (exitCode : Nat) (stderr : String) (st : Store) : HandlerResult :=
  let r := convert_xlsx_try fname lo writeRes exitCode stderr st
  -- finally: for p in [input_path, output_path]: if os.path.exists(p): os.remove(p)
  { r with store := (r.store.removeFile fname).removeFile (deriveOutputName fname) }

/-- Handler for `POST /convert-in-shared-dir` (`convert_in_shared_dir`, main.py lines
267-307): 404 if the input is absent; otherwise run libreoffice once; on
success optionally delete the original input (`delete_original` is a
nonzero form integer); the output is left in the store. -/
def convert_in_shared_dir (fname : String) (lo : Option String) (delete_original : Bool)
    (exitCode : Nat) (stderr : String) (st : Store) : HandlerResult :=
  let input := fname
  let output := deriveOutputName fname
  if input ∈ st then
    let cmd := convertCmd fname lo
    if exitCode = 0 then
      let st1 := st.write output
      if delete_original then
        { resp := .sharedOk output, store := st1.removeFile input, engineCalls := 1, cmd := cmd }
      else
        { resp := .sharedOk output, store := st1, engineCalls := 1, cmd := cmd }
    else
      { resp := .errObj ("LibreOffice failed: " ++ stderr), store := st, engineCalls := 1, cmd := cmd }
  else
    { resp := .http404, store := st, engineCalls := 0, cmd := [] }

/-- Raw `os.remove`: raises `FileNotFoundError` when the path is absent. -/
def osRemove (st : Store) (f : String) : Except String Store :=
  if f ∈ st then .ok (st.removeFile f) else .error "FileNotFoundError"

/-- Handler for `POST /delete-file` (`delete_file`, main.py lines 142-153): remove the
file only if it exists (otherwise just log a warning), then redirect to
/pdfs.  An uncaught exception would propagate as the `.error` case. -/
def delete_file (fname : String) (st : Store) : Except String (Response × Store) :=
  if fname ∈ st then
    match osRemove st fname with
    | .ok st1 => .ok (.redirectPdfs, st1)
    | .error e => .error e
  else
    .ok (.redirectPdfs, st)

/-- The pika publish performed on the queued path of /queue-job (main.py
lines 185-198): queue_declare('pdf_jobs', durable=True) and basic_publish
on the default exchange with delivery_mode=2. -/
structure PublishedMsg where
  exchange : String
  routingKey : String
  queueName : String
  queueDurable : Bool
  body : String
  deliveryMode : Nat
  deriving DecidableEq

structure QueueJobResult where
  resp : Response
  store : Store
  published : Option PublishedMsg
  engineCalls : Nat
  deriving DecidableEq

/-- Handler for `POST /queue-job` (`queue_job`, main.py lines 171-205): save the upload
into the store; if the RabbitMQ configuration is present (`cfgPresent`:
host, user and password env values all truthy) connect and publish, else
fall back to calling `convert_xlsx` on the same upload.  Any exception
(`writeRes`/`pub` as `.error`) is caught and returned as `{"error": str(e)}`.
`syncWriteRes`, `exitCode`, `stderr` parameterize the fallback call. -/
def queue_job (fname : String) (lo : Option String) (cfgPresent : Bool)
    (pub : Except String Unit) (writeRes : Except String Unit)
    (syncWriteRes : Except String Unit) (exitCode : Nat) (stderr : String)
    (st : Store) : QueueJobResult :=
  match writeRes with
  | .error e => { resp := .errObj e, store := st, published := none, engineCalls := 0 }
  | .ok _ =>
    let st1 := st.write fname
    if cfgPresent then
      match pub with
      | .ok _ =>
        { resp := .queuedObj fname, store := st1,
          published := some { exchange := "", routingKey := "pdf_jobs",
                              queueName := "pdf_jobs", queueDurable := true,
                              body := dumpsJobMessage fname lo, deliveryMode := 2 },
          engineCalls := 0 }
      | .error e =>
        { resp := .errObj e, store := st1, published := none, engineCalls := 0 }
    else
      let r := convert_xlsx fname lo syncWriteRes exitCode stderr st1
      { resp := r.resp, store := r.store, published := none, engineCalls := r.engineCalls }

/-! ## Worker (src/pdf-worker/worker.py)

`process_message` is the pika callback registered with
`basic_consume(..., auto_ack=True)`.  A successfully decoded queue message
is the triple of the `.get` results for 'xlsx', 'lo_options' and
'delete_original'; `none` in `parsed` models `json.loads` raising on a
malformed body.  The HTTP POST to the gateway is the function `http`,
returning either a transport error (a raised `requests` exception) or a
status code with the optional "pdf" field of the decoded response body. -/

structure WorkerMsg where
  xlsx : Option String
  lo_options : Option String
  delete_original : Option Nat
  deriving DecidableEq

/-- The form fields the worker POSTs to /convert-in-shared-dir
(worker.py lines 34-40): `lo_options` is forwarded as
`json.dumps(lo_options)` and only when truthy; `delete_original` is
forwarded unchanged and only when truthy. -/
structure WorkerPayload where
  filename : String
  lo_options : Option String
  delete_original : Option Nat
  deriving DecidableEq

def buildPayload (m : WorkerMsg) (fname : String) : WorkerPayload where
  filename := fname
  lo_options :=
    match m.lo_options with
    | some s => if s != "" then some (jsonDumpsString s) else none
    | none => none
  delete_original :=
    match m.delete_original with
    | some n => if n != 0 then some n else none
    | none => none

inductive WorkerOutcome where
  | noFile
  | fileMissing (path : String)
  | pdfDone (pdf : String)
  | okNoPdf
  | httpFailed (status : Nat)
  | crashLogged (err : String)
  deriving DecidableEq

/-- The body of the worker's `try:` block (worker.py lines 18-55).
A `.error` is an exception that would escape the body. -/
def processMessageBody (parsed : Option WorkerMsg) (fileExists : String → Bool)
    (http : WorkerPayload → Except String (Nat × Option String)) :
    Except String WorkerOutcome :=
  match parsed with
  | none => .error "json decode failed"
  | some m =>
    match m.xlsx with
    | none => .ok .noFile
    | some f =>
      if f == "" then .ok .noFile   -- `if not xlsx_filename:` is also true for ""
      else if fileExists f then
        match http (buildPayload m f) with
        | .error e => .error e
        | .ok (status, pdfField) =>
          if status == 200 then
            match pdfField with
            | some pdf => .ok (.pdfDone pdf)
            | none => .ok .okNoPdf
          else .ok (.httpFailed status)
      else .ok (.fileMissing f)

/-- The callback `process_message` with its enclosing `except Exception` handler
(worker.py lines 57-58): every exception is caught and logged. -/
def process_message (parsed : Option WorkerMsg) (fileExists : String → Bool)
    (http : WorkerPayload → Except String (Nat × Option String)) : WorkerOutcome :=
  match processMessageBody parsed fileExists http with
  | .ok o => o
  | .error e => .crashLogged e

/-- One delivery under `basic_consume(..., auto_ack=True)` (worker.py line
71): the message leaves the queue upon receipt, whatever the callback then
does. -/
def consumeStep (q : List (Option WorkerMsg)) (fileExists : String → Bool)
    (http : WorkerPayload → Except String (Nat × Option String)) :
    List (Option WorkerMsg) × Option WorkerOutcome :=
  match q with
  | [] => (q, none)
  | m :: rest => (rest, some (process_message m fileExists http))

/-- Draining a queue: the loop handles every delivery in order. -/
def consumeAll (q : List (Option WorkerMsg)) (fileExists : String → Bool)
    (http : WorkerPayload → Except String (Nat × Option String)) :
    List WorkerOutcome :=
  q.map (fun m => process_message m fileExists http)

/-! ## Claims -/

/-- C1: For every upload processed by `POST /convert`, after the handler
returns — whether the conversion succeeded or failed with an error —
neither the staged input path nor the derived output path exists in the
Staging Store: the `finally` block deletes both. -/
theorem claim_C1_convert_cleanup (fname : String) (lo : Option String)
    (writeRes : Except String Unit) (exitCode : Nat) (stderr : String) (st : Store) :
    fname ∉ (convert_xlsx fname lo writeRes exitCode stderr st).store ∧
    deriveOutputName fname ∉ (convert_xlsx fname lo writeRes exitCode stderr st).store := by
  have hst : (convert_xlsx fname lo writeRes exitCode stderr st).store
      = (((convert_xlsx_try fname lo writeRes exitCode stderr st).store).removeFile
          fname).removeFile (deriveOutputName fname) := rfl
  constructor
  · rw [hst]
    intro hmem
    have h1 := (Store.mem_removeFile.mp hmem).1
    exact (Store.mem_removeFile.mp h1).2 rfl
  · rw [hst]
    exact fun hmem => (Store.mem_removeFile.mp hmem).2 rfl

/-- C5: the derived output name is obtained deterministically by replacing
".xlsx" with ".pdf"; in particular "report.xlsx" derives exactly
"report.pdf", and any input whose name lacks the ".xlsx" substring derives
itself (the replacement silently no-ops). -/
theorem claim_C5_output_derivation :
    deriveOutputName "report.xlsx" = "report.pdf" ∧
    ∀ name : String, strContains name ".xlsx" = false → deriveOutputName name = name := by
  refine ⟨by decide, ?_⟩
  intro name h
  exact deriveOutputName_noop name h

theorem claim_C5_witness :
    strContains "summary.txt" ".xlsx" = false ∧
    deriveOutputName "summary.txt" = "summary.txt" :=
  ⟨by decide, claim_C5_output_derivation.2 "summary.txt" (by decide)⟩

/-- C7: whenever the libreoffice process exits with a non-zero code, both
conversion handlers return an error result whose text carries the captured
standard-error output verbatim (as a suffix of the fixed message), and the
engine is invoked exactly once (no retry). -/
theorem claim_C7_engine_failure (fname : String) (lo : Option String) (del : Bool)
    (exitCode : Nat) (stderr : String) (st : Store) (h : exitCode ≠ 0) :
    ((convert_xlsx fname lo (.ok ()) exitCode stderr st).resp
        = .errObj ("LibreOffice failed: " ++ stderr) ∧
      (convert_xlsx fname lo (.ok ()) exitCode stderr st).engineCalls = 1) ∧
    (∃ p, "LibreOffice failed: " ++ stderr = p ++ stderr) ∧
    (fname ∈ st →
      (convert_in_shared_dir fname lo del exitCode stderr st).resp
          = .errObj ("LibreOffice failed: " ++ stderr) ∧
      (convert_in_shared_dir fname lo del exitCode stderr st).engineCalls = 1) := by
  refine ⟨?_, ⟨"LibreOffice failed: ", rfl⟩, ?_⟩
  · unfold convert_xlsx convert_xlsx_try
    simp [h]
  · intro hmem
    unfold convert_in_shared_dir
    simp [hmem, h]

theorem claim_C7_witness :
    (convert_xlsx "report.xlsx" none (.ok ()) 1 "soffice: crash" ["other.pdf"]).resp
        = .errObj ("LibreOffice failed: " ++ "soffice: crash") ∧
    (convert_in_shared_dir "report.xlsx" none false 1 "soffice: crash" ["report.xlsx"]).resp
        = .errObj ("LibreOffice failed: " ++ "soffice: crash") :=
  ⟨(claim_C7_engine_failure "report.xlsx" none false 1 "soffice: crash" ["other.pdf"]
      (by decide)).1.1,
   ((claim_C7_engine_failure "report.xlsx" none false 1 "soffice: crash" ["report.xlsx"]
      (by decide)).2.2 (by decide)).1⟩

/-- C8: `POST /delete-file` on a non-existent file is a no-op that does not
raise (it always returns the redirect), and it is idempotent: a second
deletion of the same name leaves the store as the first left it. -/
theorem claim_C8_delete_idempotent (fname : String) (st : Store) :
    delete_file fname st = .ok (.redirectPdfs, st.removeFile fname) ∧
    (fname ∉ st → st.removeFile fname = st) ∧
    (st.removeFile fname).removeFile fname = st.removeFile fname := by
  refine ⟨?_, fun h => Store.removeFile_of_not_mem h, Store.removeFile_removeFile st fname⟩
  unfold delete_file osRemove
  by_cases h : fname ∈ st
  · simp [h]
  · simp [h, Store.removeFile_of_not_mem h]

theorem claim_C8_witness :
    delete_file "ghost.pdf" ["keep.pdf"] = .ok (.redirectPdfs, ["keep.pdf"]) := by
  have h := claim_C8_delete_idempotent "ghost.pdf" ["keep.pdf"]
  rw [h.2.1 (by decide)] at h
  exact h.1

/-- C3: on the successfully queued path of `POST /queue-job`, the message
published has body exactly `json.dumps({'xlsx': filename, 'lo_options':
options})`, is published with delivery_mode 2 (persistent) on the default
exchange to the durable queue 'pdf_jobs', and the call returns
`{status: "queued", file: filename}` without invoking the conversion
engine at all. -/
theorem claim_C3_queued_publish (fname : String) (lo : Option String)
    (syncWriteRes : Except String Unit) (exitCode : Nat) (stderr : String) (st : Store) :
    queue_job fname lo true (.ok ()) (.ok ()) syncWriteRes exitCode stderr st
      = { resp := .queuedObj fname,
          store := st.write fname,
          published := some { exchange := "", routingKey := "pdf_jobs",
                              queueName := "pdf_jobs", queueDurable := true,
                              body := dumpsJobMessage fname lo, deliveryMode := 2 },
          engineCalls := 0 } := rfl

/-- C9: when the upload has been written to the store but the publish then
raises, `POST /queue-job` returns an `{"error": ...}` object and performs
no cleanup: the staged input remains in the store. -/
theorem claim_C9_publish_failure_orphan (fname : String) (lo : Option String) (e : String)
    (syncWriteRes : Except String Unit) (exitCode : Nat) (stderr : String) (st : Store) :
    queue_job fname lo true (.error e) (.ok ()) syncWriteRes exitCode stderr st
      = { resp := .errObj e, store := st.write fname, published := none, engineCalls := 0 } ∧
    fname ∈ (queue_job fname lo true (.error e) (.ok ()) syncWriteRes exitCode stderr st).store :=
  ⟨rfl, Store.mem_write_self st fname⟩

/-- C2 counterexample: with the queue configuration present but the
connection failing (the pika call raises), `POST /queue-job` does NOT fall
back to the synchronous path — the connectivity failure is surfaced to the
caller as an `{"error": ...}` object and the engine is never invoked. -/
theorem claim_C2_counterexample :
    (queue_job "report.xlsx" none true (.error "connection to rabbitmq refused") (.ok ())
        (.ok ()) 0 "" []).resp
      = Response.errObj "connection to rabbitmq refused" ∧
    (queue_job "report.xlsx" none true (.error "connection to rabbitmq refused") (.ok ())
        (.ok ()) 0 "" []).engineCalls = 0 :=
  ⟨rfl, rfl⟩

/-- C2 (amended): `POST /queue-job` falls back to the synchronous
conversion path only when the queue configuration is absent (some of the
RabbitMQ env values falsy); in that case the result is structurally the
synchronous path's result.  When the configuration is present and the
connection or publish raises, the exception is caught and returned to the
caller as an `{"error": ...}` object, with no synchronous fallback. -/
theorem claim_C2_fallback (fname : String) (lo : Option String)
    (pub syncWriteRes : Except String Unit) (exitCode : Nat) (stderr : String)
    (st : Store) (e : String) :
    (queue_job fname lo false pub (.ok ()) syncWriteRes exitCode stderr st
      = { resp := (convert_xlsx fname lo syncWriteRes exitCode stderr (st.write fname)).resp,
          store := (convert_xlsx fname lo syncWriteRes exitCode stderr (st.write fname)).store,
          published := none,
          engineCalls :=
            (convert_xlsx fname lo syncWriteRes exitCode stderr (st.write fname)).engineCalls }) ∧
    (queue_job fname lo true (.error e) (.ok ()) syncWriteRes exitCode stderr st).resp
      = .errObj e :=
  ⟨rfl, rfl⟩

/-- C6 counterexample: for a staged file whose name lacks the ".xlsx"
substring, the derived output path coincides with the input path, so a
successful conversion with `delete_original` set removes the very path the
handler reports as its output — the claim's "never deletes the output
file" fails on this call. -/
theorem claim_C6_counterexample :
    deriveOutputName "report.pdf" = "report.pdf" ∧
    (convert_in_shared_dir "report.pdf" none true 0 "" ["report.pdf"]).resp
      = Response.sharedOk "report.pdf" ∧
    "report.pdf" ∉ (convert_in_shared_dir "report.pdf" none true 0 "" ["report.pdf"]).store := by
  refine ⟨by decide, by decide, ?_⟩
  decide

/-- C6 (amended): `POST /convert-in-shared-dir` on an absent input fails
with HTTP 404 and leaves the store unchanged; otherwise the input is
deleted if and only if `delete_original` is set and the conversion
succeeded; and provided the file name contains the ".xlsx" substring (so
the derived output path differs from the input path) the output is never
deleted.  (When the name lacks ".xlsx" the two paths coincide and the
"deleted input" is also the reported output.) -/
theorem claim_C6_staged_effects (fname : String) (lo : Option String) (del : Bool)
    (exitCode : Nat) (stderr : String) (st : Store) :
    (fname ∉ st → convert_in_shared_dir fname lo del exitCode stderr st
        = { resp := .http404, store := st, engineCalls := 0, cmd := [] }) ∧
    (fname ∈ st →
      (fname ∉ (convert_in_shared_dir fname lo del exitCode stderr st).store
        ↔ (del = true ∧ exitCode = 0))) ∧
    (fname ∈ st → exitCode = 0 → strContains fname ".xlsx" = true →
      deriveOutputName fname ∈ (convert_in_shared_dir fname lo del exitCode stderr st).store) := by
  refine ⟨?_, ?_, ?_⟩
  · intro h
    unfold convert_in_shared_dir
    simp [h]
  · intro h
    by_cases he : exitCode = 0
    · by_cases hd : del = true
      · simp [convert_in_shared_dir, h, he, hd, Store.not_mem_removeFile_self]
      · simp [convert_in_shared_dir, h, he, hd, Store.mem_write_iff]
    · simp [convert_in_shared_dir, h, he]
  · intro h he hc
    have hne := deriveOutputName_ne fname hc
    by_cases hd : del = true
    · simp [convert_in_shared_dir, h, he, hd, Store.mem_removeFile, Store.mem_write_iff, hne]
    · simp [convert_in_shared_dir, h, he, hd, Store.mem_write_iff]

theorem claim_C6_witness :
    "report.xlsx" ∉ (convert_in_shared_dir "report.xlsx" none true 0 "" ["report.xlsx"]).store ∧
    deriveOutputName "report.xlsx"
      ∈ (convert_in_shared_dir "report.xlsx" none true 0 "" ["report.xlsx"]).store :=
  ⟨((claim_C6_staged_effects "report.xlsx" none true 0 "" ["report.xlsx"]).2.1
      (by decide)).mpr ⟨rfl, rfl⟩,
   (claim_C6_staged_effects "report.xlsx" none true 0 "" ["report.xlsx"]).2.2
      (by decide) rfl (by decide)⟩

/-- C4: the worker's `process_message` never raises and never requeues:
auto_ack removes the delivery from the queue regardless of the outcome;
a message naming no file or a file absent from shared storage is logged
and discarded; a non-200 gateway response is logged and discarded; any
exception escaping the body (malformed JSON, transport error) is caught
and logged, and the consuming loop handles every delivery. -/
theorem claim_C4_worker_never_raises (parsed : Option WorkerMsg) (m : WorkerMsg)
    (f e : String) (status : Nat) (pdfField : Option String)
    (fileExists : String → Bool)
    (http : WorkerPayload → Except String (Nat × Option String))
    (raw : Option WorkerMsg) (rest : List (Option WorkerMsg)) :
    (consumeStep (raw :: rest) fileExists http).1 = rest ∧
    (∀ err, processMessageBody parsed fileExists http = .error err →
      process_message parsed fileExists http = .crashLogged err) ∧
    process_message none fileExists http = .crashLogged "json decode failed" ∧
    (m.xlsx = none → process_message (some m) fileExists http = .noFile) ∧
    (m.xlsx = some "" → process_message (some m) fileExists http = .noFile) ∧
    (m.xlsx = some f → f ≠ "" → fileExists f = false →
      process_message (some m) fileExists http = .fileMissing f) ∧
    (m.xlsx = some f → f ≠ "" → fileExists f = true →
      http (buildPayload m f) = .error e →
      process_message (some m) fileExists http = .crashLogged e) ∧
    (m.xlsx = some f → f ≠ "" → fileExists f = true →
      http (buildPayload m f) = .ok (status, pdfField) → status ≠ 200 →
      process_message (some m) fileExists http = .httpFailed status) ∧
    (consumeAll (raw :: rest) fileExists http).length = rest.length + 1 := by
  refine ⟨rfl, ?_, rfl, ?_, ?_, ?_, ?_, ?_, by simp [consumeAll]⟩
  · intro err herr
    unfold process_message
    rw [herr]
  · intro h
    simp [process_message, processMessageBody, h]
  · intro h
    simp [process_message, processMessageBody, h]
  · intro h1 h2 h3
    simp [process_message, processMessageBody, h1, h2, h3]
  · intro h1 h2 h3 h4
    simp [process_message, processMessageBody, h1, h2, h3, h4]
  · intro h1 h2 h3 h4 h5
    simp [process_message, processMessageBody, h1, h2, h3, h4, h5]

theorem claim_C4_witness :
    process_message (some ⟨some "report.xlsx", none, none⟩)
        (fun _ => false) (fun _ => .error "transport down")
      = .fileMissing "report.xlsx" :=
  (claim_C4_worker_never_raises (some ⟨some "report.xlsx", none, none⟩)
      ⟨some "report.xlsx", none, none⟩
      "report.xlsx" "transport down" 0 none (fun _ => false)
      (fun _ => .error "transport down") none []).2.2.2.2.2.1 rfl (by decide) rfl

/-- C10 counterexample: a queue message carrying the non-null options
value `""` is NOT forwarded as `json.dumps("")` (which is the two-quote
string): the worker's `if lo_options:` truthiness test drops the field
entirely. -/
theorem claim_C10_counterexample :
    (buildPayload ⟨some "report.xlsx", some "", none⟩ "report.xlsx").lo_options = none ∧
    jsonDumpsString "" = "\"\"" :=
  ⟨rfl, by decide⟩

/-- C10 (amended): for every queue message carrying a truthy (non-null and
non-empty) `lo_options` string `s`, the worker forwards `json.dumps(s)` —
not `s` itself — as the `lo_options` form field; for plain printable `s`
that is `s` wrapped in quote characters, and the gateway then builds its
export filter from that JSON-encoded text. -/
theorem claim_C10_options_double_encoded (m : WorkerMsg) (fname s : String)
    (del : Bool) (exitCode : Nat) (stderr : String) (st : Store)
    (h1 : m.lo_options = some s) (h2 : s ≠ "") :
    (buildPayload m fname).lo_options = some (jsonDumpsString s) ∧
    jsonDumpsString s ≠ s ∧
    ((∀ c ∈ s.data, plainChar c = true) → jsonDumpsString s = "\"" ++ s ++ "\"") ∧
    (fname ∈ st →
      (convert_in_shared_dir fname (some (jsonDumpsString s)) del exitCode stderr st).cmd
        = ["libreoffice", "--headless", "--convert-to",
           "pdf:calc_pdf_Export:" ++ jsonDumpsString s, fname, "--outdir", TMP_DIR]) := by
  refine ⟨?_, jsonDumpsString_ne s, fun hp => jsonDumpsString_plain s hp, ?_⟩
  · simp [buildPayload, h1, h2]
  · intro hmem
    have hne := jsonDumpsString_ne_empty s
    by_cases he : exitCode = 0 <;> by_cases hd : del = true <;>
      simp [convert_in_shared_dir, convertCmd, convertTarget, hmem, he, hd, hne]

theorem claim_C10_witness :
    (buildPayload ⟨some "report.xlsx", some "Landscape", none⟩ "report.xlsx").lo_options
      = some (jsonDumpsString "Landscape") ∧
    jsonDumpsString "Landscape" = "\"" ++ "Landscape" ++ "\"" :=
  ⟨(claim_C10_options_double_encoded ⟨some "report.xlsx", some "Landscape", none⟩
      "report.xlsx" "Landscape" false 0 "" ["report.xlsx"] rfl (by decide)).1,
   (claim_C10_options_double_encoded ⟨some "report.xlsx", some "Landscape", none⟩
      "report.xlsx" "Landscape" false 0 "" ["report.xlsx"] rfl (by decide)).2.2.1 (by decide)⟩

end PdfConversion
